import Mathlib

/-!
Verification of the SEO keyword-structure generator (`keyword_generator.py`)
against its specification.

Modelling conventions
* Python's global PRNG (`random.choice`, `random.randint`, `random.sample`)
  is modelled by an explicit supply of raw draws: a `Rand` is a list of
  natural numbers, each primitive consumes draws from the front (an
  exhausted supply yields 0, which is still a legal draw).  The tree
  builder hands every randomized capability call its own fresh supply
  `R c` from an oracle `R : Nat -> Rand`, advancing the counter `c` once
  per call; all theorems quantify over the oracle, and the one
  hyperproperty about "matched randomness per capability call" is stated
  at exactly this granularity.
* Provider network calls (OpenAI, Gemini, Google Custom Search) are
  oracles: an input for each adapter giving the value the adapter's
  HTTP-and-parsing code would produce (`""`, `[]` or `none` standing for
  any swallowed failure).  The credential checks, response-category
  parsing, comma splitting and truncation that the adapters perform
  locally are embedded from the source.
* The process environment (`os.environ`) is an `Env` of booleans saying
  which credential is present, plus the wall-clock year used by one
  title template.  `GOOGLE_SEARCH_AVAILABLE` is computed at module
  load in the source, so functions reading it take a separate
  load-time environment `ienv`.
* `list(set(...))` in CPython returns the distinct elements in an
  unspecified order; it is modelled by `List.dedup`, which fixes one
  such order.  Every property proved here (lengths, emptiness, bounds)
  depends only on the underlying set, not on the order.
-/

namespace SeoMap

/-- A supply of raw random draws; the head is the next draw, an empty
supply keeps yielding 0. -/
abbrev Rand := List Nat

/-- One raw draw. -/
def randNat (r : Rand) : Nat × Rand := (r.headD 0, r.tail)

/-- `random.randint(a, b)`: a draw folded into the inclusive range `[a, b]`. -/
def randint (a b : Nat) (r : Rand) : Nat × Rand :=
  (a + r.headD 0 % (b + 1 - a), r.tail)

/-- `random.choice(xs)`: pick the element at a drawn index (the source only
ever calls it on non-empty lists). -/
def choice (xs : List String) (r : Rand) : String × Rand :=
  (xs.getD (r.headD 0 % xs.length) "", r.tail)

/-- `random.sample(xs, k)`: `k` picks without replacement, each pick drawing
an index into what is left and removing the element picked. -/
def sampleN : Nat → List String → Rand → List String × Rand
  | 0, _, r => ([], r)
  | k + 1, xs, r =>
    if xs.length = 0 then ([], r)
    else
      let i := r.headD 0 % xs.length
      let rest := sampleN k (xs.eraseIdx i) r.tail
      (xs.getD i "" :: rest.1, rest.2)

/-- Whether `pat` occurs as a prefix of some suffix of `s`: Python's
substring test `pat in s` on the underlying characters. -/
def containsSubAux (pat : List Char) : List Char → Bool
  | [] => pat.isEmpty
  | c :: cs => pat.isPrefixOf (c :: cs) || containsSubAux pat cs

/-- Python's `pat in s` substring containment. -/
def containsSub (pat s : String) : Bool :=
  containsSubAux pat.data s.data

/-- Python's `str.lower()` (ASCII case mapping; the source's alphabets are
ASCII).  Implemented on the character list so that it is computable by the
kernel. -/
def pyLower (s : String) : String :=
  ⟨s.data.map Char.toLower⟩

/-- Python's `str.strip()`: whitespace removed from both ends. -/
def pyStrip (s : String) : String :=
  ⟨((s.data.dropWhile Char.isWhitespace).reverse.dropWhile Char.isWhitespace).reverse⟩

/-- Python's `str.split(sep)` for a non-empty separator, on character
lists, with explicit fuel (one unit per consumed character) to keep the
recursion structural. -/
def pySplitOnAux (sep : List Char) : Nat → List Char → List Char → List (List Char)
  | 0, rest, acc => [acc.reverse ++ rest]
  | _ + 1, [], acc => [acc.reverse]
  | fuel + 1, c :: cs, acc =>
    if sep.isPrefixOf (c :: cs) then
      acc.reverse :: pySplitOnAux sep fuel (cs.drop (sep.length - 1)) []
    else
      pySplitOnAux sep fuel cs (c :: acc)

/-- Python's `str.split(sep)`. -/
def pySplitOn (s sep : String) : List String :=
  (pySplitOnAux sep.data (s.data.length + 1) s.data []).map (fun l => (⟨l⟩ : String))

/-- Split at every whitespace character, keeping empty pieces. -/
def pySplitWhitespaceAux : List Char → List Char → List (List Char)
  | [], acc => [acc.reverse]
  | c :: cs, acc =>
    if c.isWhitespace then acc.reverse :: pySplitWhitespaceAux cs []
    else pySplitWhitespaceAux cs (c :: acc)

/-- Python's `sep.join(words)`. -/
def pyJoin (sep : String) : List String → String
  | [] => ""
  | [w] => w
  | w :: ws => w ++ sep ++ pyJoin sep ws

/-- Python's `str.title()` on the character list: an alphabetic character is
uppercased when the previous character was not alphabetic, lowercased
otherwise. -/
def titleCaseAux : Bool → List Char → List Char
  | _, [] => []
  | prev, c :: cs =>
    (if c.isAlpha then (if prev then c.toLower else c.toUpper) else c)
      :: titleCaseAux c.isAlpha cs

/-- Python's `str.title()`. -/
def pyTitle (s : String) : String :=
  ⟨titleCaseAux false s.data⟩

/-- `keyword.lower().replace(' ', '-')` (line 667 of the source). -/
def slugify (keyword : String) : String :=
  ⟨(pyLower keyword).data.map (fun c => if c = ' ' then '-' else c)⟩

/-- Python's `str.split()` with no argument: split on whitespace runs,
dropping empty pieces. -/
def pySplit (s : String) : List String :=
  ((pySplitWhitespaceAux s.data []).map (fun l => (⟨l⟩ : String))).filter (fun w => w ≠ "")

/-- One competitor record `{title, url}`. -/
structure Competitor where
  title : String
  url : String
deriving DecidableEq, Repr

/-- The sole entity: a keyword node with its enrichment and children. -/
inductive KeywordNode : Type where
  | mk : String → String → String → Nat → List Competitor → List KeywordNode → KeywordNode
deriving Inhabited

def KeywordNode.keyword : KeywordNode → String
  | .mk k _ _ _ _ _ => k

def KeywordNode.intent : KeywordNode → String
  | .mk _ i _ _ _ _ => i

def KeywordNode.title : KeywordNode → String
  | .mk _ _ t _ _ _ => t

def KeywordNode.word_count : KeywordNode → Nat
  | .mk _ _ _ w _ _ => w

def KeywordNode.competitors : KeywordNode → List Competitor
  | .mk _ _ _ _ cp _ => cp

def KeywordNode.children : KeywordNode → List KeywordNode
  | .mk _ _ _ _ _ ch => ch

/-- Replace the children list (the source mutates `node["children"]`). -/
def KeywordNode.withChildren : KeywordNode → List KeywordNode → KeywordNode
  | .mk k i t w cp _, ch => .mk k i t w cp ch

/-- The nodes at exact depth `d` below (and including, for `d = 0`) a node. -/
def nodesAtDepth : Nat → KeywordNode → List KeywordNode
  | 0, t => [t]
  | d + 1, t => t.children.flatMap (nodesAtDepth d)

mutual

/-- Height of the tree: length of the longest chain of children below the
node (0 at a leaf). -/
def hgt : KeywordNode → Nat
  | .mk _ _ _ _ _ ch => hgtList ch

def hgtList : List KeywordNode → Nat
  | [] => 0
  | c :: cs => max (hgt c + 1) (hgtList cs)

end

mutual

/-- Every node of the tree satisfies the boolean check `p`. -/
def allNodesB (p : KeywordNode → Bool) : KeywordNode → Bool
  | .mk k i t w cp ch => p (.mk k i t w cp ch) && allListB p ch

def allListB (p : KeywordNode → Bool) : List KeywordNode → Bool
  | [] => true
  | c :: cs => allNodesB p c && allListB p cs

end

mutual

/-- The tree with every `title` field blanked, all other data kept. -/
def stripTitles : KeywordNode → KeywordNode
  | .mk k i _ w cp ch => .mk k i "" w cp (stripTitlesList ch)

def stripTitlesList : List KeywordNode → List KeywordNode
  | [] => []
  | c :: cs => stripTitles c :: stripTitlesList cs

end

/-- The process environment: which credential is set in `os.environ`, plus
the wall-clock year `datetime.now().year` read by one title template. -/
structure Env where
  openai_api_key : Bool
  gemini_api_key : Bool
  google_search_api_key : Bool
  google_search_cx : Bool
  now_year : Nat
deriving Repr

/-- Which client packages imported successfully at module load
(`OPENAI_AVAILABLE`, `GEMINI_AVAILABLE`). -/
structure Packages where
  openai : Bool
  gemini : Bool
deriving Repr

/-- Line 27 of the source: computed once at module import time from the
environment of that moment. -/
def GOOGLE_SEARCH_AVAILABLE (ienv : Env) : Bool :=
  ienv.google_search_api_key && ienv.google_search_cx

/-- The provider oracles: for each adapter, the value its HTTP call and
response parsing would deliver.  `""`, `[]` and `none` stand for any
failure the adapter swallows.  For intent and the Gemini keyword list the
raw response text is taken and the source's parsing is embedded. -/
structure Providers where
  openai_title : String → String → String → String
  gemini_title_endpoint : String → String → String → String
  gemini_title_lib : String → String → String → String
  openai_intent : String → Option String
  gemini_intent : String → Option String
  openai_keywords : String → String → List String
  gemini_keywords : String → String → Option String
  openai_competitors : String → List Competitor
  gemini_competitors : String → List Competitor
  google_search : String → List Competitor

/-- Lines 30-37: Gemini is initialized when its key is present and the
package imported. -/
def initialize_gemini (pk : Packages) (env : Env) : Bool :=
  env.gemini_api_key && pk.gemini

/-- Lines 362-409: empty without a call-time key, otherwise the oracle. -/
def generate_title_with_openai (env : Env) (P : Providers) (keyword intent custom_prompt : String) : String :=
  if !env.openai_api_key then "" else P.openai_title keyword intent custom_prompt

/-- Lines 111-164: the direct-endpoint path checks only the key. -/
def generate_title_with_gemini_endpoint (env : Env) (P : Providers) (keyword intent custom_prompt : String) : String :=
  if !env.gemini_api_key then "" else P.gemini_title_endpoint keyword intent custom_prompt

/-- Lines 166-208: endpoint first, then the library path behind
`initialize_gemini`. -/
def generate_title_with_gemini (pk : Packages) (env : Env) (P : Providers) (keyword intent custom_prompt : String) : String :=
  let t := generate_title_with_gemini_endpoint env P keyword intent custom_prompt
  if t ≠ "" then t
  else if !initialize_gemini pk env then ""
  else P.gemini_title_lib keyword intent custom_prompt

/-- Lines 235-240 and 713-720: map the model's text to a recognized
category, `none` when none of the three words occurs. -/
def parse_intent_response (result : String) : Option String :=
  if containsSub "commercial" (pyLower result) then some "Commercial"
  else if containsSub "navigational" (pyLower result) then some "Navigational"
  else if containsSub "informational" (pyLower result) then some "Informational"
  else none

/-- Lines 677-724. -/
def determine_intent_with_openai (env : Env) (P : Providers) (keyword : String) : Option String :=
  if !env.openai_api_key then none
  else (P.openai_intent keyword).bind parse_intent_response

/-- Lines 210-245. -/
def determine_intent_with_gemini (pk : Packages) (env : Env) (P : Providers) (keyword : String) : Option String :=
  if !initialize_gemini pk env then none
  else (P.gemini_intent keyword).bind parse_intent_response

/-- Lines 758-805: the JSON-parsing adapter, abstracted to its returned
list, behind the call-time key check. -/
def generate_related_keywords_with_openai (env : Env) (P : Providers) (keyword intent : String) : List String :=
  if !env.openai_api_key then [] else P.openai_keywords keyword intent

/-- Lines 247-275: split the response text on commas, strip, drop empties,
keep at most 10. -/
def generate_related_keywords_with_gemini (pk : Packages) (env : Env) (P : Providers) (keyword intent : String) : List String :=
  if !initialize_gemini pk env then []
  else
    match P.gemini_keywords keyword intent with
    | none => []
    | some text =>
      ((((pySplitOn text ",").map (fun k => pyStrip k)).filter (fun k => k ≠ "")).take 10)

/-- Lines 541-593: at most 3 records from the parsed JSON. -/
def generate_competitors_with_openai (env : Env) (P : Providers) (keyword : String) : List Competitor :=
  if !env.openai_api_key then [] else (P.openai_competitors keyword).take 3

/-- Lines 277-328: at most 3 records parsed from the response text. -/
def generate_competitors_with_gemini (pk : Packages) (env : Env) (P : Providers) (keyword : String) : List Competitor :=
  if !initialize_gemini pk env then [] else (P.gemini_competitors keyword).take 3

/-- Lines 595-630: both search credentials are re-read at call time inside
the adapter; the top 3 items are kept. -/
def generate_competitors_with_google_search (env : Env) (P : Providers) (keyword : String) : List Competitor :=
  if !(env.google_search_api_key && env.google_search_cx) then []
  else (P.google_search keyword).take 3

/-- Line 331. -/
def INTENTS : List String := ["Commercial", "Informational", "Navigational"]

/-- Lines 334-339. -/
def INFORMATIONAL_MODIFIERS : List String :=
  ["what is", "how to", "guide", "tutorial", "tips for", "best practices",
   "examples of", "understanding", "learn", "beginner's guide to", "advanced",
   "complete guide", "definition", "explained", "overview", "benefits of",
   "history of", "types of", "comparison", "vs", "difference between"]

/-- Lines 341-346. -/
def COMMERCIAL_MODIFIERS : List String :=
  ["best", "top", "buy", "cheap", "affordable", "premium", "review", "price",
   "cost of", "for sale", "deal", "discount", "professional", "services",
   "near me", "online", "shop", "purchase", "hire", "agency", "software",
   "tools", "platform"]

/-- Lines 348-352. -/
def NAVIGATIONAL_MODIFIERS : List String :=
  ["login", "sign up", "download", "app", "website", "official", "customer service",
   "contact", "support", "dashboard", "account", "register", "free trial", "demo",
   "forum"]

/-- Lines 354-360. -/
def DOMAINS : List String :=
  ["example.com", "seosite.com", "digitalmarketer.com", "wordstream.com",
   "semrush.com", "ahrefs.com", "moz.com", "searchenginejournal.com",
   "backlinko.com", "neilpatel.com", "hubspot.com", "seoroundtable.com",
   "searchengineland.com", "contentmarketinginstitute.com", "bloggingwizard.com"]

/-- Line 744. -/
def commercial_indicators : List String :=
  ["buy", "price", "cost", "shop", "purchase", "review", "best", "top", "vs", "comparison"]

/-- Line 750. -/
def navigational_indicators : List String :=
  ["login", "sign up", "download", "app", "website", "contact", "support"]

/-- Lines 740-756: the rule-based fallback of `determine_intent`, factored
out.  The source's for-loops with early return are the same function as
`List.any` since every match returns the same category. -/
def rule_intent (keyword : String) : String :=
  let keyword_lower := pyLower keyword
  if commercial_indicators.any (fun ind => containsSub ind keyword_lower) then "Commercial"
  else if navigational_indicators.any (fun ind => containsSub ind keyword_lower) then "Navigational"
  else "Informational"

/-- Lines 726-756: provider cascade for intent, ending in the rule engine. -/
def determine_intent (pk : Packages) (env : Env) (P : Providers) (keyword : String) : String :=
  let openai_intent :=
    if pk.openai && env.openai_api_key then determine_intent_with_openai env P keyword else none
  match openai_intent with
  | some i => i
  | none =>
    let gemini_intent :=
      if pk.gemini && env.gemini_api_key then determine_intent_with_gemini pk env P keyword else none
    match gemini_intent with
    | some i => i
    | none => rule_intent keyword

/-- Line 431. -/
def numbers_terms : List String := ["number", "numbered", "use number", "add number"]

/-- Line 432. -/
def formal_terms : List String := ["formal", "professional", "formal tone"]

/-- Lines 428-530: the template-based part of `generate_title`, reached when
no AI provider produced a title. -/
def rule_title (env : Env) (keyword intent custom_prompt : String) (r : Rand) : String × Rand :=
  let tc := pyTitle keyword
  if custom_prompt ≠ "" then
    let use_numbers := numbers_terms.any (fun t => containsSub t (pyLower custom_prompt))
    let formal_tone := formal_terms.any (fun t => containsSub t (pyLower custom_prompt))
    let templates :=
      if intent = "Informational" then
        if use_numbers then
          ["10 Essential " ++ tc ++ " Tips You Should Know",
           "7 Important Facts About " ++ tc ++ " for Beginners",
           "5 Step-by-Step Methods to Master " ++ tc,
           "8 Key Concepts of " ++ tc ++ " Explained"]
        else if formal_tone then
          ["A Comprehensive Analysis of " ++ tc ++ " Methodologies",
           "The Definitive Guide to " ++ tc ++ ": Professional Insights",
           tc ++ ": A Thorough Examination of Principles and Applications",
           "Understanding the Fundamentals of " ++ tc ++ ": An In-depth Overview"]
        else
          ["The Ultimate Guide to " ++ tc ++ ": Everything You Need to Know",
           "How to " ++ tc ++ ": A Complete Step-by-Step Guide",
           tc ++ " 101: Essential Tips and Techniques",
           "Understanding " ++ tc ++ ": A Comprehensive Overview"]
      else if intent = "Commercial" then
        if use_numbers then
          ["Top 10 " ++ tc ++ " Products to Buy in " ++ toString env.now_year,
           "5 Best " ++ tc ++ " Options for Every Budget",
           "7 " ++ tc ++ " Products Professional Reviewers Recommend",
           "8 Premium " ++ tc ++ " Solutions Worth Your Investment"]
        else if formal_tone then
          ["A Comparative Analysis of Premium " ++ tc ++ " Products",
           "Professional Review: Selected " ++ tc ++ " Solutions for Discerning Buyers",
           "Investment Considerations: Superior " ++ tc ++ " Options Available",
           "An Objective Assessment of Leading " ++ tc ++ " Products"]
        else
          ["The Best " ++ tc ++ " Reviews: Ultimate Buyer's Guide",
           tc ++ ": Top Options Compared",
           "Best " ++ tc ++ " Products: Reviews and Comparisons",
           "How to Choose the Right " ++ tc ++ " for Your Needs"]
      else
        if use_numbers then
          ["5 Essential " ++ tc ++ " Resources You Need to Bookmark",
           "10 Official " ++ tc ++ " Platforms to Access Information",
           "7 Best Ways to Navigate " ++ tc ++ " Successfully",
           "3 Direct Pathways to Access " ++ tc ++ " Resources"]
        else if formal_tone then
          ["Professional Guide to Accessing " ++ tc ++ " Resources",
           "An Index of Authoritative " ++ tc ++ " Platforms",
           "Navigational Framework for " ++ tc ++ " Information Access",
           "A Structured Approach to Finding " ++ tc ++ " Resources"]
        else
          ["Official " ++ tc ++ " Resources: Where to Find What You Need",
           "How to Access " ++ tc ++ ": A Quick Reference Guide",
           "Navigate " ++ tc ++ " Like a Pro: Essential Links",
           tc ++ " Directory: Top Sites and Resources"]
    choice templates r
  else
    if intent = "Informational" then
      choice
        ["The Complete Guide to " ++ tc ++ ": Everything You Need to Know",
         "How to Master " ++ tc ++ ": Step-by-Step Tutorial",
         tc ++ " Explained: A Comprehensive Guide for Beginners",
         "10 Essential " ++ tc ++ " Tips You Should Know",
         "Understanding " ++ tc ++ ": A Detailed Overview"] r
    else if intent = "Commercial" then
      let y := randint 2023 2024 r
      choice
        ["Top 10 Best " ++ tc ++ " Solutions in " ++ toString y.1,
         "The Ultimate Buyer's Guide to " ++ tc,
         "Best " ++ tc ++ " Products: Reviews and Comparisons",
         tc ++ ": Pricing, Features, and Alternatives Compared",
         "How to Choose the Right " ++ tc ++ " for Your Needs"] y.2
    else
      choice
        ["Official " ++ tc ++ " Resources: Where to Find What You Need",
         "How to Access " ++ tc ++ ": A Quick Reference Guide",
         "Navigate " ++ tc ++ " Like a Pro: Essential Links and Resources",
         "Finding the Best " ++ tc ++ " Platforms and Tools",
         tc ++ " Directory: Top Sites and Resources"] r

/-- Lines 411-530: title cascade, OpenAI then Gemini then templates. -/
def generate_title (pk : Packages) (env : Env) (P : Providers) (keyword intent custom_prompt : String) (r : Rand) : String × Rand :=
  let openai_title :=
    if pk.openai && env.openai_api_key
    then generate_title_with_openai env P keyword intent custom_prompt else ""
  if openai_title ≠ "" then (openai_title, r)
  else
    let gemini_title :=
      if pk.gemini && env.gemini_api_key
      then generate_title_with_gemini pk env P keyword intent custom_prompt else ""
    if gemini_title ≠ "" then (gemini_title, r)
    else rule_title env keyword intent custom_prompt r

/-- Lines 532-539. -/
def recommend_word_count (intent : String) (r : Rand) : Nat × Rand :=
  if intent = "Informational" then randint 1500 2500 r
  else if intent = "Commercial" then randint 1200 2000 r
  else randint 800 1500 r

/-- Lines 656-673: the body of the rule fallback's loop over the sampled
domains; `randint(5, 15)` is drawn while the template list is built, before
the choice. -/
def rule_competitors_go (keyword : String) : List String → Rand → List Competitor × Rand
  | [], r => ([], r)
  | domain :: rest, r =>
    let tc := pyTitle keyword
    let n := randint 5 15 r
    let title_templates :=
      [tc ++ " - Complete Guide and Resources",
       "Everything You Need to Know About " ++ tc,
       "The Ultimate Guide to " ++ tc ++ " | " ++ pyTitle ((pySplitOn domain ".").headD ""),
       toString n.1 ++ " Best " ++ tc ++ " Strategies",
       tc ++ ": Definition, Examples, and Best Practices",
       tc ++ " 101: Beginner's Guide to Success"]
    let t := choice title_templates n.2
    let url := "https://www." ++ domain ++ "/" ++ slugify keyword ++ "/"
    let restc := rule_competitors_go keyword rest t.2
    ({ title := t.1, url := url } :: restc.1, restc.2)

/-- Lines 652-675: the rule-based competitor generator, 3 domains sampled
without replacement. -/
def rule_competitors (keyword : String) (r : Rand) : List Competitor × Rand :=
  let ds := sampleN 3 DOMAINS r
  rule_competitors_go keyword ds.1 ds.2

/-- Lines 632-675: competitor cascade, Google Search (behind the flag
computed at module load) then OpenAI then Gemini then the rule engine. -/
def generate_competitors (pk : Packages) (ienv env : Env) (P : Providers) (keyword : String) (r : Rand) : List Competitor × Rand :=
  let search :=
    if GOOGLE_SEARCH_AVAILABLE ienv
    then generate_competitors_with_google_search env P keyword else []
  if search ≠ [] then (search, r)
  else
    let oa :=
      if pk.openai && env.openai_api_key
      then generate_competitors_with_openai env P keyword else []
    if oa ≠ [] then (oa, r)
    else
      let gm :=
        if pk.gemini && env.gemini_api_key
        then generate_competitors_with_gemini pk env P keyword else []
      if gm ≠ [] then (gm, r)
      else rule_competitors keyword r

/-- Line 846's pick list. -/
def pick_words : List String := ["best", "top", "online", "professional", "free"]

/-- Lines 843-847: for a multi-word keyword, one variation per word index,
prefixing a random pick to that word. -/
def combosGo (words : List String) (i : Nat) (r : Rand) : List String × Rand :=
  if h : i < words.length then
    let p := choice pick_words r
    let line := pyJoin " " (words.set i (p.1 ++ " " ++ words.getD i ""))
    let rest := combosGo words (i + 1) p.2
    (line :: rest.1, rest.2)
  else ([], r)
termination_by words.length - i

/-- Lines 824-860: the rule-based related-keyword generator.  The source's
`if " " in keyword` branches append the same string, and `list(set(...))`
is modelled by `dedup` (same elements, one fixed order). -/
def rule_related_keywords (keyword intent : String) (r : Rand) : List String × Rand :=
  let modifiers :=
    if intent = "Informational" then INFORMATIONAL_MODIFIERS
    else if intent = "Commercial" then COMMERCIAL_MODIFIERS
    else NAVIGATIONAL_MODIFIERS
  let s := sampleN (min 5 modifiers.length) modifiers r
  let prefixed := s.1.map (fun m => m ++ " " ++ keyword)
  let words := pySplit keyword
  let cb := if words.length > 1 then combosGo words 0 s.2 else ([], s.2)
  let related :=
    (prefixed ++ cb.1 ++
      [keyword ++ " examples", keyword ++ " tools", keyword ++ " services",
       keyword ++ " tips", keyword ++ " strategies"]).dedup
  (related.take (min 10 related.length), cb.2)

/-- Lines 807-860: related-keyword cascade; an empty `intent` argument
triggers an internal intent classification first. -/
def generate_related_keywords (pk : Packages) (env : Env) (P : Providers) (keyword : String) (intent : String) (r : Rand) : List String × Rand :=
  let intent := if intent = "" then determine_intent pk env P keyword else intent
  let oa :=
    if pk.openai && env.openai_api_key
    then generate_related_keywords_with_openai env P keyword intent else []
  if oa ≠ [] then (oa.take (min 10 oa.length), r)
  else
    let gm :=
      if pk.gemini && env.gemini_api_key
      then generate_related_keywords_with_gemini pk env P keyword intent else []
    if gm ≠ [] then (gm.take (min 10 gm.length), r)
    else rule_related_keywords keyword intent r

/-- Lines 862-876: build one enriched node.  Each randomized capability
call receives its own supply `R c`; the counter advances once per call. -/
def generate_keyword_node (pk : Packages) (ienv env : Env) (P : Providers) (R : Nat → Rand) (keyword : String) (is_root : Bool) (custom_prompt : String) (c : Nat) : KeywordNode × Nat :=
  let ic := if is_root then ((choice INTENTS (R c)).1, c + 1)
            else (determine_intent pk env P keyword, c)
  let intent := ic.1
  let title := (generate_title pk env P keyword intent custom_prompt (R ic.2)).1
  let wc := (recommend_word_count intent (R (ic.2 + 1))).1
  let comps := (generate_competitors pk ienv env P keyword (R (ic.2 + 2))).1
  (.mk keyword intent title wc comps [], ic.2 + 3)

/-- Lines 907-911: the innermost loop, one leaf per third-level keyword. -/
def buildLevel3 (pk : Packages) (ienv env : Env) (P : Providers) (R : Nat → Rand) (custom_prompt : String) : List String → Nat → List KeywordNode × Nat
  | [], c => ([], c)
  | kw :: ks, c =>
    let n := generate_keyword_node pk ienv env P R kw false custom_prompt c
    let rest := buildLevel3 pk ienv env P R custom_prompt ks n.2
    (n.1 :: rest.1, rest.2)

/-- Lines 902-911: one second-level node per keyword, expanded to the third
level when `depth >= 3`. -/
def buildLevel2 (pk : Packages) (ienv env : Env) (P : Providers) (R : Nat → Rand) (custom_prompt : String) (depth : Int) : List String → Nat → List KeywordNode × Nat
  | [], c => ([], c)
  | kw :: ks, c =>
    let n := generate_keyword_node pk ienv env P R kw false custom_prompt c
    let ch3 :=
      if 3 ≤ depth then
        let kws3 := ((generate_related_keywords pk env P kw "" (R n.2)).1.take 2, n.2 + 1)
        buildLevel3 pk ienv env P R custom_prompt kws3.1 kws3.2
      else ([], n.2)
    let rest := buildLevel2 pk ienv env P R custom_prompt depth ks ch3.2
    (n.1.withChildren ch3.1 :: rest.1, rest.2)

/-- Lines 895-911: one first-level node per keyword, expanded to the second
level when `depth >= 2`. -/
def buildLevel1 (pk : Packages) (ienv env : Env) (P : Providers) (R : Nat → Rand) (custom_prompt : String) (depth : Int) : List String → Nat → List KeywordNode × Nat
  | [], c => ([], c)
  | kw :: ks, c =>
    let n := generate_keyword_node pk ienv env P R kw false custom_prompt c
    let ch2 :=
      if 2 ≤ depth then
        let kws2 := ((generate_related_keywords pk env P kw "" (R n.2)).1.take 3, n.2 + 1)
        buildLevel2 pk ienv env P R custom_prompt depth kws2.1 kws2.2
      else ([], n.2)
    let rest := buildLevel1 pk ienv env P R custom_prompt depth ks ch2.2
    (n.1.withChildren ch2.1 :: rest.1, rest.2)

/-- Lines 878-913: the tree builder.  The first level of children is built
from the full related-keyword list of the seed, with no truncation. -/
def generate_keyword_structure (pk : Packages) (ienv env : Env) (P : Providers) (R : Nat → Rand) (main_keyword : String) (depth : Int) (custom_prompt : String) : KeywordNode :=
  let root := generate_keyword_node pk ienv env P R main_keyword true custom_prompt 0
  let first_level_keywords := (generate_related_keywords pk env P main_keyword "" (R root.2)).1
  let ch := buildLevel1 pk ienv env P R custom_prompt depth first_level_keywords (root.2 + 1)
  root.1.withChildren ch.1

/-- The inclusive word-count range the data model assigns to each intent:
Informational 1500-2500, Commercial 1200-2000, Navigational 800-1500. -/
def intent_range_ok (intent : String) (w : Nat) : Bool :=
  (decide (intent = "Informational") && decide (1500 ≤ w) && decide (w ≤ 2500)) ||
  (decide (intent = "Commercial") && decide (1200 ≤ w) && decide (w ≤ 2000)) ||
  (decide (intent = "Navigational") && decide (800 ≤ w) && decide (w ≤ 1500))

/-- A node's recommended word count lies in the range of its intent. -/
def word_count_ok (n : KeywordNode) : Bool :=
  intent_range_ok n.intent n.word_count

/-- The per-level branching caps of the tree: at most 10 first-level
children, at most 3 (and none unless `depth >= 2`) second-level children
per first-level node, at most 2 (and none unless `depth >= 3`) third-level
children per second-level node. -/
def branching_caps_ok (depth : Int) (t : KeywordNode) : Bool :=
  decide (t.children.length ≤ 10) &&
  t.children.all (fun c =>
    decide (c.children.length ≤ 3) &&
    (decide (2 ≤ depth) || c.children.isEmpty) &&
    c.children.all (fun g =>
      decide (g.children.length ≤ 2) &&
      (decide (3 ≤ depth) || g.children.isEmpty)))

/-- What holds of every third-level (leaf) node of a generated tree. -/
def leafOk (n : KeywordNode) : Prop :=
  n.children = [] ∧ word_count_ok n = true ∧ n.intent ∈ INTENTS

/-- What holds of every second-level node of a generated tree. -/
def level2Ok (depth : Int) (n : KeywordNode) : Prop :=
  word_count_ok n = true ∧ n.intent ∈ INTENTS ∧
  n.children.length ≤ 2 ∧
  (¬ 3 ≤ depth → n.children = []) ∧
  (3 ≤ depth → n.children ≠ []) ∧
  ∀ m ∈ n.children, leafOk m

/-- What holds of every first-level node of a generated tree. -/
def level1Ok (depth : Int) (n : KeywordNode) : Prop :=
  word_count_ok n = true ∧ n.intent ∈ INTENTS ∧
  n.children.length ≤ 3 ∧
  (¬ 2 ≤ depth → n.children = []) ∧
  (2 ≤ depth → n.children ≠ []) ∧
  ∀ m ∈ n.children, level2Ok depth m

/-- An environment with no credential set. -/
def env0 : Env := ⟨false, false, false, false, 2025⟩

/-- An environment where only the two Google Search credentials are set. -/
def envG : Env := ⟨false, false, true, true, 2025⟩

/-- No client package imported. -/
def pk0 : Packages := ⟨false, false⟩

/-- Both client packages imported. -/
def pkAll : Packages := ⟨true, true⟩

/-- Providers that always fail (every adapter yields its empty value). -/
def P0 : Providers :=
  ⟨fun _ _ _ => "", fun _ _ _ => "", fun _ _ _ => "", fun _ => none, fun _ => none,
   fun _ _ => [], fun _ _ => none, fun _ => [], fun _ => [], fun _ => []⟩

/-- Providers where only the Google Search oracle answers, with one fixed
record. -/
def P0g : Providers :=
  { P0 with google_search := fun _ => [⟨"Real Competitor", "https://real.example/x"⟩] }

/-- The all-zero randomness oracle: every capability call draws zeros. -/
def R0 : Nat → Rand := fun _ => []

/-! Generic facts about the randomness primitives and strings. -/

@[simp] theorem keyword_mk (k i t w cp ch) : (KeywordNode.mk k i t w cp ch).keyword = k := rfl

@[simp] theorem intent_mk (k i t w cp ch) : (KeywordNode.mk k i t w cp ch).intent = i := rfl

@[simp] theorem title_mk (k i t w cp ch) : (KeywordNode.mk k i t w cp ch).title = t := rfl

@[simp] theorem word_count_mk (k i t w cp ch) : (KeywordNode.mk k i t w cp ch).word_count = w := rfl

@[simp] theorem competitors_mk (k i t w cp ch) : (KeywordNode.mk k i t w cp ch).competitors = cp := rfl

@[simp] theorem children_mk (k i t w cp ch) : (KeywordNode.mk k i t w cp ch).children = ch := rfl

@[simp] theorem withChildren_mk (k i t w cp ch ch') :
    (KeywordNode.mk k i t w cp ch).withChildren ch' = KeywordNode.mk k i t w cp ch' := rfl

theorem word_count_ok_withChildren (n : KeywordNode) (ch : List KeywordNode) :
    word_count_ok (n.withChildren ch) = word_count_ok n := by
  cases n; rfl

theorem intent_withChildren (n : KeywordNode) (ch : List KeywordNode) :
    (n.withChildren ch).intent = n.intent := by
  cases n; rfl

theorem keyword_withChildren (n : KeywordNode) (ch : List KeywordNode) :
    (n.withChildren ch).keyword = n.keyword := by
  cases n; rfl

theorem children_withChildren (n : KeywordNode) (ch : List KeywordNode) :
    (n.withChildren ch).children = ch := by
  cases n; rfl

theorem string_eq_empty_of_length (s : String) (h : s.length = 0) : s = "" := by
  cases s with
  | mk d =>
    cases d with
    | nil => rfl
    | cons c cs => simp [String.length] at h

theorem string_append_ne_left (s t : String) (h : s ≠ "") : s ++ t ≠ "" := by
  intro he
  apply h
  have hl := congrArg String.length he
  rw [String.length_append] at hl
  have h0 : ("" : String).length = 0 := rfl
  exact string_eq_empty_of_length s (by omega)

theorem string_append_ne_right (s t : String) (h : t ≠ "") : s ++ t ≠ "" := by
  intro he
  apply h
  have hl := congrArg String.length he
  rw [String.length_append] at hl
  have h0 : ("" : String).length = 0 := rfl
  exact string_eq_empty_of_length t (by omega)

theorem choice_mem (xs : List String) (r : Rand) (h : xs ≠ []) : (choice xs r).1 ∈ xs := by
  have hl : 0 < xs.length := List.length_pos.mpr h
  have hi : r.headD 0 % xs.length < xs.length := Nat.mod_lt _ hl
  simp only [choice]
  rw [List.getD_eq_getElem _ _ hi]
  exact List.getElem_mem hi

theorem choice_ne_empty (xs : List String) (r : Rand) (h : ∀ x ∈ xs, x ≠ "") (hne : xs ≠ []) :
    (choice xs r).1 ≠ "" :=
  h _ (choice_mem xs r hne)

theorem randint_bounds (a b : Nat) (r : Rand) (h : a ≤ b) :
    a ≤ (randint a b r).1 ∧ (randint a b r).1 ≤ b := by
  have hm : r.headD 0 % (b + 1 - a) < b + 1 - a := Nat.mod_lt _ (by omega)
  simp only [randint]
  omega

theorem sampleN_length (k : Nat) : ∀ (xs : List String) (r : Rand), k ≤ xs.length →
    ((sampleN k xs r).1).length = k := by
  induction k with
  | zero => intro xs r _; simp [sampleN]
  | succ n ih =>
    intro xs r h
    have hx : ¬ xs.length = 0 := by omega
    have hi : r.headD 0 % xs.length < xs.length := Nat.mod_lt _ (by omega)
    simp only [sampleN, hx, if_false, List.length_cons]
    rw [ih (xs.eraseIdx (r.headD 0 % xs.length)) r.tail]
    rw [List.length_eraseIdx_of_lt hi]
    omega

theorem sampleN_nodup_subset (k : Nat) : ∀ (xs : List String) (r : Rand), xs.Nodup →
    ((sampleN k xs r).1).Nodup ∧ ∀ x ∈ (sampleN k xs r).1, x ∈ xs := by
  induction k with
  | zero => intro xs r _; simp [sampleN]
  | succ n ih =>
    intro xs r hnd
    by_cases hx : xs.length = 0
    · simp [sampleN, hx]
    · have hi : r.headD 0 % xs.length < xs.length := Nat.mod_lt _ (by omega)
      have herased : (xs.eraseIdx (r.headD 0 % xs.length)).Nodup := hnd.eraseIdx _
      obtain ⟨ihnd, ihsub⟩ := ih (xs.eraseIdx (r.headD 0 % xs.length)) r.tail herased
      have hget : xs.getD (r.headD 0 % xs.length) "" = xs[r.headD 0 % xs.length] :=
        List.getD_eq_getElem _ _ hi
      have hnotmem : xs[r.headD 0 % xs.length] ∉ xs.eraseIdx (r.headD 0 % xs.length) := by
        rw [← hnd.erase_getElem _ hi]
        exact hnd.not_mem_erase
      constructor
      · simp only [sampleN, hx, if_false]
        rw [List.nodup_cons]
        refine ⟨?_, ihnd⟩
        rw [hget]
        intro hmem
        exact hnotmem (ihsub _ hmem)
      · intro x hmem
        simp only [sampleN, hx, if_false, List.mem_cons] at hmem
        rcases hmem with rfl | hmem
        · rw [hget]; exact List.getElem_mem hi
        · exact List.eraseIdx_subset _ _ (ihsub _ hmem)

theorem take_min10_ne (l : List String) (h : l ≠ []) : l.take (min 10 l.length) ≠ [] := by
  have hl : 0 < l.length := List.length_pos.mpr h
  intro he
  have := congrArg List.length he
  rw [List.length_take] at this
  simp only [List.length_nil] at this
  omega

theorem take_min10_le (l : List String) : (l.take (min 10 l.length)).length ≤ 10 := by
  rw [List.length_take]
  omega

theorem take_pos_ne (l : List String) (n : Nat) (hl : l ≠ []) (hn : 0 < n) : l.take n ≠ [] := by
  cases l with
  | nil => exact absurd rfl hl
  | cons a as =>
    cases n with
    | zero => omega
    | succ m => simp [List.take]

/-! Facts about the rule engine. -/

theorem rule_intent_mem (keyword : String) : rule_intent keyword ∈ INTENTS := by
  unfold rule_intent
  dsimp only
  split
  · simp [INTENTS]
  · split
    · simp [INTENTS]
    · simp [INTENTS]

theorem parse_intent_mem (s i : String) (h : parse_intent_response s = some i) : i ∈ INTENTS := by
  unfold parse_intent_response at h
  split at h
  · simp_all [INTENTS]
  · split at h
    · simp_all [INTENTS]
    · split at h
      · simp_all [INTENTS]
      · exact absurd h (by simp)

theorem determine_intent_with_openai_mem (env : Env) (P : Providers) (keyword i : String)
    (h : determine_intent_with_openai env P keyword = some i) : i ∈ INTENTS := by
  unfold determine_intent_with_openai at h
  split at h
  · exact absurd h (by simp)
  · obtain ⟨s, _, hps⟩ := Option.bind_eq_some.mp h
    exact parse_intent_mem s i hps

theorem determine_intent_with_gemini_mem (pk : Packages) (env : Env) (P : Providers) (keyword i : String)
    (h : determine_intent_with_gemini pk env P keyword = some i) : i ∈ INTENTS := by
  unfold determine_intent_with_gemini at h
  split at h
  · exact absurd h (by simp)
  · obtain ⟨s, _, hps⟩ := Option.bind_eq_some.mp h
    exact parse_intent_mem s i hps

theorem determine_intent_mem (pk : Packages) (env : Env) (P : Providers) (keyword : String) :
    determine_intent pk env P keyword ∈ INTENTS := by
  unfold determine_intent
  dsimp only
  by_cases h1 : (pk.openai && env.openai_api_key) = true
  · rw [if_pos h1]
    cases ho : determine_intent_with_openai env P keyword with
    | some i =>
      exact determine_intent_with_openai_mem env P keyword i ho
    | none =>
      dsimp only
      by_cases h2 : (pk.gemini && env.gemini_api_key) = true
      · rw [if_pos h2]
        cases hg : determine_intent_with_gemini pk env P keyword with
        | some i => exact determine_intent_with_gemini_mem pk env P keyword i hg
        | none => exact rule_intent_mem keyword
      · rw [if_neg h2]
        exact rule_intent_mem keyword
  · rw [if_neg h1]
    dsimp only
    by_cases h2 : (pk.gemini && env.gemini_api_key) = true
    · rw [if_pos h2]
      cases hg : determine_intent_with_gemini pk env P keyword with
      | some i => exact determine_intent_with_gemini_mem pk env P keyword i hg
      | none => exact rule_intent_mem keyword
    · rw [if_neg h2]
      exact rule_intent_mem keyword

theorem rule_title_ne (env : Env) (keyword intent custom_prompt : String) (r : Rand) :
    (rule_title env keyword intent custom_prompt r).1 ≠ "" := by
  unfold rule_title
  dsimp only
  repeat' split
  all_goals refine choice_ne_empty _ _ ?_ ?_
  all_goals try exact List.cons_ne_nil _ _
  all_goals
    (intro x hx
     simp only [List.mem_cons, List.not_mem_nil, or_false] at hx
     repeat' (first | (rcases hx with rfl | hx) | (subst hx)))
  all_goals
    first
    | exact string_append_ne_right _ _ (by decide)
    | exact string_append_ne_left _ _ (by decide)
    | exact string_append_ne_left _ _ (string_append_ne_right _ _ (by decide))

theorem generate_title_ne (pk : Packages) (env : Env) (P : Providers)
    (keyword intent custom_prompt : String) (r : Rand) :
    (generate_title pk env P keyword intent custom_prompt r).1 ≠ "" := by
  unfold generate_title
  dsimp only
  set oa := (if (pk.openai && env.openai_api_key) = true
    then generate_title_with_openai env P keyword intent custom_prompt else "") with hoa
  by_cases h1 : oa ≠ ""
  · rw [if_pos h1]; exact h1
  · rw [if_neg h1]
    set gm := (if (pk.gemini && env.gemini_api_key) = true
      then generate_title_with_gemini pk env P keyword intent custom_prompt else "") with hgm
    by_cases h2 : gm ≠ ""
    · rw [if_pos h2]; exact h2
    · rw [if_neg h2]; exact rule_title_ne env keyword intent custom_prompt r

theorem recommend_word_count_range (intent : String) (r : Rand) :
    (intent = "Informational" →
      1500 ≤ (recommend_word_count intent r).1 ∧ (recommend_word_count intent r).1 ≤ 2500) ∧
    (intent = "Commercial" →
      1200 ≤ (recommend_word_count intent r).1 ∧ (recommend_word_count intent r).1 ≤ 2000) ∧
    (intent = "Navigational" →
      800 ≤ (recommend_word_count intent r).1 ∧ (recommend_word_count intent r).1 ≤ 1500) := by
  unfold recommend_word_count
  refine ⟨fun h => ?_, fun h => ?_, fun h => ?_⟩ <;> simp only [h]
  · simpa using randint_bounds 1500 2500 r (by omega)
  · simpa using randint_bounds 1200 2000 r (by omega)
  · simpa using randint_bounds 800 1500 r (by omega)

theorem rule_related_keywords_ne (keyword intent : String) (r : Rand) :
    (rule_related_keywords keyword intent r).1 ≠ [] := by
  unfold rule_related_keywords
  apply take_min10_ne
  apply List.ne_nil_of_mem (a := keyword ++ " examples")
  rw [List.mem_dedup]
  simp

theorem rule_related_keywords_le10 (keyword intent : String) (r : Rand) :
    ((rule_related_keywords keyword intent r).1).length ≤ 10 := by
  unfold rule_related_keywords
  apply take_min10_le

theorem generate_related_keywords_ne (pk : Packages) (env : Env) (P : Providers)
    (keyword intent : String) (r : Rand) :
    (generate_related_keywords pk env P keyword intent r).1 ≠ [] := by
  unfold generate_related_keywords
  dsimp only
  set I := (if intent = "" then determine_intent pk env P keyword else intent) with hI
  set oa := (if (pk.openai && env.openai_api_key) = true
    then generate_related_keywords_with_openai env P keyword I else []) with hoa
  by_cases h1 : oa ≠ []
  · rw [if_pos h1]; exact take_min10_ne oa h1
  · rw [if_neg h1]
    set gm := (if (pk.gemini && env.gemini_api_key) = true
      then generate_related_keywords_with_gemini pk env P keyword I else []) with hgm
    by_cases h2 : gm ≠ []
    · rw [if_pos h2]; exact take_min10_ne gm h2
    · rw [if_neg h2]; exact rule_related_keywords_ne keyword I r

theorem generate_related_keywords_le10 (pk : Packages) (env : Env) (P : Providers)
    (keyword intent : String) (r : Rand) :
    ((generate_related_keywords pk env P keyword intent r).1).length ≤ 10 := by
  unfold generate_related_keywords
  dsimp only
  set I := (if intent = "" then determine_intent pk env P keyword else intent) with hI
  set oa := (if (pk.openai && env.openai_api_key) = true
    then generate_related_keywords_with_openai env P keyword I else []) with hoa
  by_cases h1 : oa ≠ []
  · rw [if_pos h1]; exact take_min10_le oa
  · rw [if_neg h1]
    set gm := (if (pk.gemini && env.gemini_api_key) = true
      then generate_related_keywords_with_gemini pk env P keyword I else []) with hgm
    by_cases h2 : gm ≠ []
    · rw [if_pos h2]; exact take_min10_le gm
    · rw [if_neg h2]; exact rule_related_keywords_le10 keyword I r

theorem rule_competitors_go_length (keyword : String) :
    ∀ (ds : List String) (r : Rand), ((rule_competitors_go keyword ds r).1).length = ds.length := by
  intro ds
  induction ds with
  | nil => intro r; simp [rule_competitors_go]
  | cons d rest ih => intro r; simp [rule_competitors_go, ih]

theorem rule_competitors_go_urls (keyword : String) :
    ∀ (ds : List String) (r : Rand),
      ((rule_competitors_go keyword ds r).1).map Competitor.url
        = ds.map (fun d => "https://www." ++ d ++ "/" ++ slugify keyword ++ "/") := by
  intro ds
  induction ds with
  | nil => intro r; simp [rule_competitors_go]
  | cons d rest ih => intro r; simp [rule_competitors_go, ih]

theorem rule_competitors_length (keyword : String) (r : Rand) :
    ((rule_competitors keyword r).1).length = 3 := by
  unfold rule_competitors
  dsimp only
  rw [rule_competitors_go_length]
  exact sampleN_length 3 DOMAINS r (by simp [DOMAINS])

theorem rule_competitors_ne (keyword : String) (r : Rand) :
    (rule_competitors keyword r).1 ≠ [] := by
  intro he
  have hlen := congrArg List.length he
  rw [rule_competitors_length] at hlen
  simp at hlen

theorem generate_competitors_ne (pk : Packages) (ienv env : Env) (P : Providers)
    (keyword : String) (r : Rand) :
    (generate_competitors pk ienv env P keyword r).1 ≠ [] := by
  unfold generate_competitors
  dsimp only
  set gs := (if GOOGLE_SEARCH_AVAILABLE ienv = true
    then generate_competitors_with_google_search env P keyword else []) with hgs
  by_cases h1 : gs ≠ []
  · rw [if_pos h1]; exact h1
  · rw [if_neg h1]
    set oa := (if (pk.openai && env.openai_api_key) = true
      then generate_competitors_with_openai env P keyword else []) with hoa
    by_cases h2 : oa ≠ []
    · rw [if_pos h2]; exact h2
    · rw [if_neg h2]
      set gm := (if (pk.gemini && env.gemini_api_key) = true
        then generate_competitors_with_gemini pk env P keyword else []) with hgm
      by_cases h3 : gm ≠ []
      · rw [if_pos h3]; exact h3
      · rw [if_neg h3]; exact rule_competitors_ne keyword r

/-! Equations and helpers for the mutually recursive tree functions. -/

theorem hgt_mk (k i t w cp ch) : hgt (KeywordNode.mk k i t w cp ch) = hgtList ch := by
  unfold hgt
  rfl

theorem hgtList_nil : hgtList [] = 0 := by
  unfold hgtList
  rfl

theorem hgtList_cons (c : KeywordNode) (cs : List KeywordNode) :
    hgtList (c :: cs) = max (hgt c + 1) (hgtList cs) := by
  simp only [hgtList]

theorem hgt_children_empty (t : KeywordNode) (h : t.children = []) : hgt t = 0 := by
  cases t with
  | mk k i ti w cp ch =>
    simp only [children_mk] at h
    subst h
    rw [hgt_mk, hgtList_nil]

theorem hgtList_const (v : Nat) :
    ∀ (l : List KeywordNode), l ≠ [] → (∀ c ∈ l, hgt c = v) → hgtList l = v + 1 := by
  intro l
  induction l with
  | nil => intro h; exact absurd rfl h
  | cons c cs ih =>
    intro _ hall
    rw [hgtList_cons, hall c (by simp)]
    cases cs with
    | nil => rw [hgtList_nil]; omega
    | cons d ds =>
      rw [ih (by simp) (fun x hx => hall x (List.mem_cons_of_mem c hx))]
      omega

theorem hgt_children_const (t : KeywordNode) (v : Nat) (hne : t.children ≠ [])
    (h : ∀ c ∈ t.children, hgt c = v) : hgt t = v + 1 := by
  cases t with
  | mk k i ti w cp ch =>
    simp only [children_mk] at hne h
    rw [hgt_mk]
    exact hgtList_const v ch hne h

theorem allNodesB_mk (p : KeywordNode → Bool) (k i t w cp ch) :
    allNodesB p (KeywordNode.mk k i t w cp ch)
      = (p (KeywordNode.mk k i t w cp ch) && allListB p ch) := by
  unfold allNodesB
  rfl

theorem allListB_iff (p : KeywordNode → Bool) (l : List KeywordNode) :
    allListB p l = true ↔ ∀ c ∈ l, allNodesB p c = true := by
  induction l with
  | nil => simp [allListB]
  | cons c cs ih =>
    unfold allListB
    rw [Bool.and_eq_true, ih]
    simp

theorem stripTitles_mk (k i t w cp ch) :
    stripTitles (KeywordNode.mk k i t w cp ch)
      = KeywordNode.mk k i "" w cp (stripTitlesList ch) := by
  unfold stripTitles
  rfl

theorem stripTitlesList_nil : stripTitlesList [] = [] := by
  unfold stripTitlesList
  rfl

theorem stripTitlesList_cons (c : KeywordNode) (cs : List KeywordNode) :
    stripTitlesList (c :: cs) = stripTitles c :: stripTitlesList cs := by
  simp only [stripTitlesList]

theorem stripTitles_withChildren (n : KeywordNode) (ch : List KeywordNode) :
    stripTitles (n.withChildren ch) = (stripTitles n).withChildren (stripTitlesList ch) := by
  cases n with
  | mk k i t w cp ch0 => rw [withChildren_mk, stripTitles_mk, stripTitles_mk, withChildren_mk]

/-! Per-node enrichment facts. -/

theorem recommend_intent_range_ok (intent : String) (r : Rand) (h : intent ∈ INTENTS) :
    intent_range_ok intent (recommend_word_count intent r).1 = true := by
  simp only [INTENTS, List.mem_cons, List.not_mem_nil, or_false] at h
  unfold recommend_word_count intent_range_ok
  rcases h with rfl | rfl | rfl
  · rw [if_neg (by decide), if_pos rfl]
    have hb := randint_bounds 1200 2000 r (by omega)
    simp only [Bool.or_eq_true, Bool.and_eq_true, decide_eq_true_eq]
    tauto
  · rw [if_pos rfl]
    have hb := randint_bounds 1500 2500 r (by omega)
    simp only [Bool.or_eq_true, Bool.and_eq_true, decide_eq_true_eq]
    tauto
  · rw [if_neg (by decide), if_neg (by decide)]
    have hb := randint_bounds 800 1500 r (by omega)
    simp only [Bool.or_eq_true, Bool.and_eq_true, decide_eq_true_eq]
    tauto

theorem generate_keyword_node_spec (pk : Packages) (ienv env : Env) (P : Providers)
    (R : Nat → Rand) (keyword : String) (is_root : Bool) (custom_prompt : String) (c : Nat) :
    ((generate_keyword_node pk ienv env P R keyword is_root custom_prompt c).1).keyword = keyword ∧
    ((generate_keyword_node pk ienv env P R keyword is_root custom_prompt c).1).intent ∈ INTENTS ∧
    word_count_ok ((generate_keyword_node pk ienv env P R keyword is_root custom_prompt c).1) = true ∧
    ((generate_keyword_node pk ienv env P R keyword is_root custom_prompt c).1).children = [] ∧
    ((generate_keyword_node pk ienv env P R keyword is_root custom_prompt c).1).competitors ≠ [] := by
  cases is_root with
  | true =>
    have hmem : (choice INTENTS (R c)).1 ∈ INTENTS := choice_mem INTENTS (R c) (by simp [INTENTS])
    unfold generate_keyword_node
    dsimp only
    refine ⟨rfl, hmem, ?_, rfl, ?_⟩
    · exact recommend_intent_range_ok _ _ hmem
    · exact generate_competitors_ne pk ienv env P keyword _
  | false =>
    have hmem := determine_intent_mem pk env P keyword
    unfold generate_keyword_node
    dsimp only
    refine ⟨rfl, hmem, ?_, rfl, ?_⟩
    · exact recommend_intent_range_ok _ _ hmem
    · exact generate_competitors_ne pk ienv env P keyword _

/-! Shape of the built levels. -/

theorem buildLevel3_spec (pk : Packages) (ienv env : Env) (P : Providers) (R : Nat → Rand)
    (prompt : String) :
    ∀ (ks : List String) (c : Nat),
      ((buildLevel3 pk ienv env P R prompt ks c).1).length = ks.length ∧
      ∀ n ∈ (buildLevel3 pk ienv env P R prompt ks c).1, leafOk n := by
  intro ks
  induction ks with
  | nil =>
    intro c
    simp [buildLevel3]
  | cons kw ks ih =>
    intro c
    constructor
    · simp only [buildLevel3]
      try dsimp only
      simp only [List.length_cons]
      rw [(ih _).1]
    · intro n hn
      simp only [buildLevel3] at hn
      try dsimp only at hn
      rcases List.mem_cons.mp hn with rfl | hn
      · obtain ⟨-, hi, hw, hch, -⟩ := generate_keyword_node_spec pk ienv env P R kw false prompt c
        exact ⟨hch, hw, hi⟩
      · exact (ih _).2 n hn

theorem buildLevel2_spec (pk : Packages) (ienv env : Env) (P : Providers) (R : Nat → Rand)
    (prompt : String) (depth : Int) :
    ∀ (ks : List String) (c : Nat),
      ((buildLevel2 pk ienv env P R prompt depth ks c).1).length = ks.length ∧
      ∀ n ∈ (buildLevel2 pk ienv env P R prompt depth ks c).1, level2Ok depth n := by
  intro ks
  induction ks with
  | nil =>
    intro c
    simp [buildLevel2]
  | cons kw ks ih =>
    intro c
    by_cases hd : 3 ≤ depth
    · constructor
      · simp only [buildLevel2]
        try dsimp only
        rw [if_pos hd]
        simp only [List.length_cons]
        rw [(ih _).1]
      · intro n hn
        simp only [buildLevel2] at hn
        try dsimp only at hn
        rw [if_pos hd] at hn
        rcases List.mem_cons.mp hn with rfl | hn
        · obtain ⟨-, hi, hw, -, -⟩ := generate_keyword_node_spec pk ienv env P R kw false prompt c
          refine ⟨?_, ?_, ?_, ?_, ?_, ?_⟩
          · rw [word_count_ok_withChildren]; exact hw
          · rw [intent_withChildren]; exact hi
          · rw [children_withChildren, (buildLevel3_spec pk ienv env P R prompt _ _).1,
              List.length_take]
            omega
          · intro h3; exact absurd hd h3
          · intro _
            rw [children_withChildren]
            intro he
            have hlen := congrArg List.length he
            rw [(buildLevel3_spec pk ienv env P R prompt _ _).1, List.length_take,
              List.length_nil] at hlen
            have hne := generate_related_keywords_ne pk env P kw ""
              (R (generate_keyword_node pk ienv env P R kw false prompt c).2)
            have hpos := List.length_pos.mpr hne
            omega
          · intro m hm2
            rw [children_withChildren] at hm2
            exact (buildLevel3_spec pk ienv env P R prompt _ _).2 m hm2
        · exact (ih _).2 n hn
    · constructor
      · simp only [buildLevel2]
        try dsimp only
        rw [if_neg hd]
        simp only [List.length_cons]
        rw [(ih _).1]
      · intro n hn
        simp only [buildLevel2] at hn
        try dsimp only at hn
        rw [if_neg hd] at hn
        rcases List.mem_cons.mp hn with rfl | hn
        · obtain ⟨-, hi, hw, -, -⟩ := generate_keyword_node_spec pk ienv env P R kw false prompt c
          refine ⟨?_, ?_, ?_, ?_, ?_, ?_⟩
          · rw [word_count_ok_withChildren]; exact hw
          · rw [intent_withChildren]; exact hi
          · rw [children_withChildren]; simp
          · intro _; rw [children_withChildren]
          · intro h3; exact absurd h3 hd
          · intro m hm2
            rw [children_withChildren] at hm2
            simp at hm2
        · exact (ih _).2 n hn

theorem buildLevel1_spec (pk : Packages) (ienv env : Env) (P : Providers) (R : Nat → Rand)
    (prompt : String) (depth : Int) :
    ∀ (ks : List String) (c : Nat),
      ((buildLevel1 pk ienv env P R prompt depth ks c).1).length = ks.length ∧
      ∀ n ∈ (buildLevel1 pk ienv env P R prompt depth ks c).1, level1Ok depth n := by
  intro ks
  induction ks with
  | nil =>
    intro c
    simp [buildLevel1]
  | cons kw ks ih =>
    intro c
    by_cases hd : 2 ≤ depth
    · constructor
      · simp only [buildLevel1]
        try dsimp only
        rw [if_pos hd]
        simp only [List.length_cons]
        rw [(ih _).1]
      · intro n hn
        simp only [buildLevel1] at hn
        try dsimp only at hn
        rw [if_pos hd] at hn
        rcases List.mem_cons.mp hn with rfl | hn
        · obtain ⟨-, hi, hw, -, -⟩ := generate_keyword_node_spec pk ienv env P R kw false prompt c
          refine ⟨?_, ?_, ?_, ?_, ?_, ?_⟩
          · rw [word_count_ok_withChildren]; exact hw
          · rw [intent_withChildren]; exact hi
          · rw [children_withChildren, (buildLevel2_spec pk ienv env P R prompt depth _ _).1,
              List.length_take]
            omega
          · intro h2; exact absurd hd h2
          · intro _
            rw [children_withChildren]
            intro he
            have hlen := congrArg List.length he
            rw [(buildLevel2_spec pk ienv env P R prompt depth _ _).1, List.length_take,
              List.length_nil] at hlen
            have hne := generate_related_keywords_ne pk env P kw ""
              (R (generate_keyword_node pk ienv env P R kw false prompt c).2)
            have hpos := List.length_pos.mpr hne
            omega
          · intro m hm2
            rw [children_withChildren] at hm2
            exact (buildLevel2_spec pk ienv env P R prompt depth _ _).2 m hm2
        · exact (ih _).2 n hn
    · constructor
      · simp only [buildLevel1]
        try dsimp only
        rw [if_neg hd]
        simp only [List.length_cons]
        rw [(ih _).1]
      · intro n hn
        simp only [buildLevel1] at hn
        try dsimp only at hn
        rw [if_neg hd] at hn
        rcases List.mem_cons.mp hn with rfl | hn
        · obtain ⟨-, hi, hw, -, -⟩ := generate_keyword_node_spec pk ienv env P R kw false prompt c
          refine ⟨?_, ?_, ?_, ?_, ?_, ?_⟩
          · rw [word_count_ok_withChildren]; exact hw
          · rw [intent_withChildren]; exact hi
          · rw [children_withChildren]; simp
          · intro _; rw [children_withChildren]
          · intro h2; exact absurd h2 hd
          · intro m hm2
            rw [children_withChildren] at hm2
            simp at hm2
        · exact (ih _).2 n hn

theorem generate_keyword_structure_spec (pk : Packages) (ienv env : Env) (P : Providers)
    (R : Nat → Rand) (kw : String) (depth : Int) (prompt : String) :
    (generate_keyword_structure pk ienv env P R kw depth prompt).keyword = kw ∧
    word_count_ok (generate_keyword_structure pk ienv env P R kw depth prompt) = true ∧
    (generate_keyword_structure pk ienv env P R kw depth prompt).intent ∈ INTENTS ∧
    ((generate_keyword_structure pk ienv env P R kw depth prompt).children).length ≤ 10 ∧
    (generate_keyword_structure pk ienv env P R kw depth prompt).children ≠ [] ∧
    ∀ n ∈ (generate_keyword_structure pk ienv env P R kw depth prompt).children,
      level1Ok depth n := by
  obtain ⟨hk, hi, hw, -, -⟩ := generate_keyword_node_spec pk ienv env P R kw true prompt 0
  have hkeys := generate_related_keywords_ne pk env P kw ""
    (R (generate_keyword_node pk ienv env P R kw true prompt 0).2)
  have hkeyslen := generate_related_keywords_le10 pk env P kw ""
    (R (generate_keyword_node pk ienv env P R kw true prompt 0).2)
  unfold generate_keyword_structure
  dsimp only
  refine ⟨?_, ?_, ?_, ?_, ?_, ?_⟩
  · rw [keyword_withChildren]; exact hk
  · rw [word_count_ok_withChildren]; exact hw
  · rw [intent_withChildren]; exact hi
  · rw [children_withChildren, (buildLevel1_spec pk ienv env P R prompt depth _ _).1]
    exact hkeyslen
  · rw [children_withChildren]
    intro he
    have hlen := congrArg List.length he
    rw [(buildLevel1_spec pk ienv env P R prompt depth _ _).1, List.length_nil] at hlen
    have hpos := List.length_pos.mpr hkeys
    omega
  · intro n hn
    rw [children_withChildren] at hn
    exact (buildLevel1_spec pk ienv env P R prompt depth _ _).2 n hn

/-- The height of every generated tree is `min (max depth 1) 3`: one level
is built unconditionally, and levels 2 and 3 only for `depth >= 2` and
`depth >= 3`. -/
theorem hgt_generate_keyword_structure (pk : Packages) (ienv env : Env) (P : Providers)
    (R : Nat → Rand) (kw : String) (prompt : String) (depth : Int) :
    hgt (generate_keyword_structure pk ienv env P R kw depth prompt)
      = (min (max depth 1) 3).toNat := by
  obtain ⟨-, -, -, -, hne, hmem⟩ := generate_keyword_structure_spec pk ienv env P R kw depth prompt
  by_cases h2 : 2 ≤ depth
  · by_cases h3 : 3 ≤ depth
    · have hch : ∀ c ∈ (generate_keyword_structure pk ienv env P R kw depth prompt).children,
          hgt c = 2 := by
        intro c hc
        obtain ⟨-, -, -, -, hcne, hcm⟩ := hmem c hc
        have hm1 : ∀ m ∈ c.children, hgt m = 1 := by
          intro m hm
          obtain ⟨-, -, -, -, hmne, hmm⟩ := hcm m hm
          have h0 : ∀ g ∈ m.children, hgt g = 0 := fun g hg => hgt_children_empty g (hmm g hg).1
          exact hgt_children_const m 0 (hmne h3) h0
        exact hgt_children_const c 1 (hcne h2) hm1
      rw [hgt_children_const _ 2 hne hch]
      omega
    · have hch : ∀ c ∈ (generate_keyword_structure pk ienv env P R kw depth prompt).children,
          hgt c = 1 := by
        intro c hc
        obtain ⟨-, -, -, -, hcne, hcm⟩ := hmem c hc
        have hm0 : ∀ m ∈ c.children, hgt m = 0 := by
          intro m hm
          obtain ⟨-, -, -, hmempty, -, -⟩ := hcm m hm
          exact hgt_children_empty m (hmempty h3)
        exact hgt_children_const c 0 (hcne h2) hm0
      rw [hgt_children_const _ 1 hne hch]
      omega
  · have hch : ∀ c ∈ (generate_keyword_structure pk ienv env P R kw depth prompt).children,
        hgt c = 0 := by
      intro c hc
      obtain ⟨-, -, -, hcempty, -, -⟩ := hmem c hc
      exact hgt_children_empty c (hcempty h2)
    rw [hgt_children_const _ 0 hne hch]
    omega

theorem nodesAtDepth_zero (t : KeywordNode) : nodesAtDepth 0 t = [t] := rfl

theorem nodesAtDepth_succ (d : Nat) (t : KeywordNode) :
    nodesAtDepth (d + 1) t = t.children.flatMap (nodesAtDepth d) := rfl

theorem flatMap_nodesAtDepth_zero (l : List KeywordNode) : l.flatMap (nodesAtDepth 0) = l := by
  induction l with
  | nil => rfl
  | cons c cs ih => simp [List.flatMap_cons, nodesAtDepth_zero, ih]

theorem nodesAtDepth_one (t : KeywordNode) : nodesAtDepth 1 t = t.children := by
  rw [nodesAtDepth_succ, flatMap_nodesAtDepth_zero]

theorem allNodesB_of_facts (p : KeywordNode → Bool) (t : KeywordNode)
    (hp : p t = true) (hch : ∀ c ∈ t.children, allNodesB p c = true) :
    allNodesB p t = true := by
  cases t with
  | mk k i ti w cp ch =>
    rw [allNodesB_mk, Bool.and_eq_true, allListB_iff]
    refine ⟨hp, ?_⟩
    simpa using hch

/-! The custom title instruction reaches only the title capability. -/

theorem generate_keyword_node_prompt_indep (pk : Packages) (ienv env : Env) (P : Providers)
    (R : Nat → Rand) (kw : String) (is_root : Bool) (p1 p2 : String) (c : Nat) :
    stripTitles (generate_keyword_node pk ienv env P R kw is_root p1 c).1
      = stripTitles (generate_keyword_node pk ienv env P R kw is_root p2 c).1 ∧
    (generate_keyword_node pk ienv env P R kw is_root p1 c).2
      = (generate_keyword_node pk ienv env P R kw is_root p2 c).2 := by
  cases is_root with
  | true =>
    unfold generate_keyword_node
    dsimp only
    rw [stripTitles_mk, stripTitles_mk]
    exact ⟨rfl, rfl⟩
  | false =>
    unfold generate_keyword_node
    dsimp only
    rw [stripTitles_mk, stripTitles_mk]
    exact ⟨rfl, rfl⟩

theorem buildLevel3_prompt_indep (pk : Packages) (ienv env : Env) (P : Providers)
    (R : Nat → Rand) (p1 p2 : String) :
    ∀ (ks : List String) (c : Nat),
      stripTitlesList (buildLevel3 pk ienv env P R p1 ks c).1
        = stripTitlesList (buildLevel3 pk ienv env P R p2 ks c).1 ∧
      (buildLevel3 pk ienv env P R p1 ks c).2 = (buildLevel3 pk ienv env P R p2 ks c).2 := by
  intro ks
  induction ks with
  | nil => intro c; exact ⟨rfl, rfl⟩
  | cons kw ks ih =>
    intro c
    obtain ⟨hn, hc⟩ := generate_keyword_node_prompt_indep pk ienv env P R kw false p1 p2 c
    simp only [buildLevel3]
    try dsimp only
    rw [stripTitlesList_cons, stripTitlesList_cons, hc]
    obtain ⟨hr, hc2⟩ := ih (generate_keyword_node pk ienv env P R kw false p2 c).2
    refine ⟨?_, hc2⟩
    rw [hn, hr]

theorem buildLevel2_prompt_indep (pk : Packages) (ienv env : Env) (P : Providers)
    (R : Nat → Rand) (depth : Int) (p1 p2 : String) :
    ∀ (ks : List String) (c : Nat),
      stripTitlesList (buildLevel2 pk ienv env P R p1 depth ks c).1
        = stripTitlesList (buildLevel2 pk ienv env P R p2 depth ks c).1 ∧
      (buildLevel2 pk ienv env P R p1 depth ks c).2
        = (buildLevel2 pk ienv env P R p2 depth ks c).2 := by
  intro ks
  induction ks with
  | nil => intro c; exact ⟨rfl, rfl⟩
  | cons kw ks ih =>
    intro c
    obtain ⟨hn, hc⟩ := generate_keyword_node_prompt_indep pk ienv env P R kw false p1 p2 c
    simp only [buildLevel2]
    try dsimp only
    rw [hc]
    by_cases hd : 3 ≤ depth
    · rw [if_pos hd, if_pos hd]
      obtain ⟨h3, h3c⟩ := buildLevel3_prompt_indep pk ienv env P R p1 p2
        (((generate_related_keywords pk env P kw ""
            (R (generate_keyword_node pk ienv env P R kw false p2 c).2)).1).take 2)
        ((generate_keyword_node pk ienv env P R kw false p2 c).2 + 1)
      rw [stripTitlesList_cons, stripTitlesList_cons, h3c]
      obtain ⟨hr, hc2⟩ := ih (buildLevel3 pk ienv env P R p2
        (((generate_related_keywords pk env P kw ""
            (R (generate_keyword_node pk ienv env P R kw false p2 c).2)).1).take 2)
        ((generate_keyword_node pk ienv env P R kw false p2 c).2 + 1)).2
      refine ⟨?_, hc2⟩
      rw [stripTitles_withChildren, stripTitles_withChildren, hn, h3, hr]
    · rw [if_neg hd, if_neg hd]
      rw [stripTitlesList_cons, stripTitlesList_cons]
      obtain ⟨hr, hc2⟩ := ih (generate_keyword_node pk ienv env P R kw false p2 c).2
      refine ⟨?_, hc2⟩
      rw [stripTitles_withChildren, stripTitles_withChildren, hn, hr]

theorem buildLevel1_prompt_indep (pk : Packages) (ienv env : Env) (P : Providers)
    (R : Nat → Rand) (depth : Int) (p1 p2 : String) :
    ∀ (ks : List String) (c : Nat),
      stripTitlesList (buildLevel1 pk ienv env P R p1 depth ks c).1
        = stripTitlesList (buildLevel1 pk ienv env P R p2 depth ks c).1 ∧
      (buildLevel1 pk ienv env P R p1 depth ks c).2
        = (buildLevel1 pk ienv env P R p2 depth ks c).2 := by
  intro ks
  induction ks with
  | nil => intro c; exact ⟨rfl, rfl⟩
  | cons kw ks ih =>
    intro c
    obtain ⟨hn, hc⟩ := generate_keyword_node_prompt_indep pk ienv env P R kw false p1 p2 c
    simp only [buildLevel1]
    try dsimp only
    rw [hc]
    by_cases hd : 2 ≤ depth
    · rw [if_pos hd, if_pos hd]
      obtain ⟨h2, h2c⟩ := buildLevel2_prompt_indep pk ienv env P R depth p1 p2
        (((generate_related_keywords pk env P kw ""
            (R (generate_keyword_node pk ienv env P R kw false p2 c).2)).1).take 3)
        ((generate_keyword_node pk ienv env P R kw false p2 c).2 + 1)
      rw [stripTitlesList_cons, stripTitlesList_cons, h2c]
      obtain ⟨hr, hc2⟩ := ih (buildLevel2 pk ienv env P R p2 depth
        (((generate_related_keywords pk env P kw ""
            (R (generate_keyword_node pk ienv env P R kw false p2 c).2)).1).take 3)
        ((generate_keyword_node pk ienv env P R kw false p2 c).2 + 1)).2
      refine ⟨?_, hc2⟩
      rw [stripTitles_withChildren, stripTitles_withChildren, hn, h2, hr]
    · rw [if_neg hd, if_neg hd]
      rw [stripTitlesList_cons, stripTitlesList_cons]
      obtain ⟨hr, hc2⟩ := ih (generate_keyword_node pk ienv env P R kw false p2 c).2
      refine ⟨?_, hc2⟩
      rw [stripTitles_withChildren, stripTitles_withChildren, hn, hr]

/-! With every optional provider unavailable, each resolver returns the
rule-engine result unconditionally. -/

theorem determine_intent_all_disabled (pk : Packages) (env : Env) (P : Providers) (kw : String)
    (hoa : env.openai_api_key = false) (hgm : env.gemini_api_key = false) :
    determine_intent pk env P kw = rule_intent kw := by
  unfold determine_intent
  dsimp only
  simp only [hoa, hgm, Bool.and_false, Bool.false_eq_true, if_false]

theorem generate_title_all_disabled (pk : Packages) (env : Env) (P : Providers)
    (kw intent prompt : String) (r : Rand)
    (hoa : env.openai_api_key = false) (hgm : env.gemini_api_key = false) :
    (generate_title pk env P kw intent prompt r).1 = (rule_title env kw intent prompt r).1 := by
  unfold generate_title
  dsimp only
  simp only [hoa, hgm, Bool.and_false, Bool.false_eq_true, if_false, ne_eq,
    not_true_eq_false, reduceIte]

theorem generate_related_keywords_all_disabled (pk : Packages) (env : Env) (P : Providers)
    (kw intent : String) (r : Rand)
    (hoa : env.openai_api_key = false) (hgm : env.gemini_api_key = false) :
    (generate_related_keywords pk env P kw intent r).1
      = (rule_related_keywords kw (if intent = "" then rule_intent kw else intent) r).1 := by
  unfold generate_related_keywords
  dsimp only
  simp only [hoa, hgm, Bool.and_false, Bool.false_eq_true, if_false, ne_eq,
    not_true_eq_false, reduceIte]
  rw [determine_intent_all_disabled pk env P kw hoa hgm]

theorem generate_competitors_all_disabled (pk : Packages) (ienv env : Env) (P : Providers)
    (kw : String) (r : Rand)
    (hoa : env.openai_api_key = false) (hgm : env.gemini_api_key = false)
    (hgs : GOOGLE_SEARCH_AVAILABLE ienv = false) :
    (generate_competitors pk ienv env P kw r).1 = (rule_competitors kw r).1 := by
  unfold generate_competitors
  dsimp only
  simp only [hoa, hgm, hgs, Bool.and_false, Bool.false_eq_true, if_false, ne_eq,
    not_true_eq_false, reduceIte]

/-! The claims. -/

/-- C1 (amended): for every seed keyword and configured depth, the tree
built by `generate_keyword_structure` respects the per-level branching
caps: the root has at most 10 first-level children (the full, untruncated
related-keyword list); each first-level node has at most 3 second-level
children, and only if depth >= 2; each second-level node has at most 2
third-level children, and only if depth >= 3. -/
theorem branching_caps_of_generate_keyword_structure (pk : Packages) (ienv env : Env)
    (P : Providers) (R : Nat → Rand) (kw : String) (depth : Int) (prompt : String) :
    branching_caps_ok depth (generate_keyword_structure pk ienv env P R kw depth prompt)
      = true := by
  obtain ⟨-, -, -, hlen, -, hmem⟩ := generate_keyword_structure_spec pk ienv env P R kw depth prompt
  unfold branching_caps_ok
  simp only [Bool.and_eq_true, Bool.or_eq_true, List.all_eq_true, decide_eq_true_eq,
    List.isEmpty_iff]
  refine ⟨hlen, ?_⟩
  intro c hc
  obtain ⟨-, -, hclen, hcempty, -, hcm⟩ := hmem c hc
  refine ⟨⟨hclen, ?_⟩, ?_⟩
  · by_cases h2 : 2 ≤ depth
    · exact Or.inl h2
    · exact Or.inr (hcempty h2)
  · intro g hg
    obtain ⟨-, -, hglen, hgempty, -, -⟩ := hcm g hg
    refine ⟨hglen, ?_⟩
    by_cases h3 : 3 ≤ depth
    · exact Or.inl h3
    · exact Or.inr (hgempty h3)

/-- C1 counterexample: with no provider configured and the all-zero
randomness, the single-word seed "seo" yields 10 first-level children, so
the claimed cap of 5 on the root's children is violated. -/
theorem root_children_exceed_five :
    ((generate_keyword_structure pk0 env0 env0 P0 R0 "seo" 1 "").children).length = 10 ∧
    ¬ ((generate_keyword_structure pk0 env0 env0 P0 R0 "seo" 1 "").children).length ≤ 5 := by
  constructor
  · rfl
  · decide

/-- C2: for every seed keyword and configured depth d in {1, 2, 3}, the
tree has height exactly d below the root (related-keyword generation is
never empty, so no branch stops early), and every node at that maximum
depth has an empty children list. -/
theorem depth_exact_and_max_depth_leaves (pk : Packages) (ienv env : Env) (P : Providers)
    (R : Nat → Rand) (kw : String) (prompt : String) (d : Int)
    (h : d = 1 ∨ d = 2 ∨ d = 3) :
    hgt (generate_keyword_structure pk ienv env P R kw d prompt) = d.toNat ∧
    (nodesAtDepth d.toNat (generate_keyword_structure pk ienv env P R kw d prompt)).all
      (fun n => n.children.isEmpty) = true := by
  obtain ⟨-, -, -, -, -, hmem⟩ := generate_keyword_structure_spec pk ienv env P R kw d prompt
  constructor
  · rw [hgt_generate_keyword_structure]
    omega
  · rcases h with rfl | rfl | rfl
    · rw [List.all_eq_true]
      intro n hn
      rw [show ((1 : Int).toNat) = 1 from rfl, nodesAtDepth_one] at hn
      obtain ⟨-, -, -, hempty, -, -⟩ := hmem n hn
      rw [List.isEmpty_iff]
      exact hempty (by omega)
    · rw [List.all_eq_true]
      intro n hn
      rw [show ((2 : Int).toNat) = 2 from rfl, nodesAtDepth_succ, List.mem_flatMap] at hn
      obtain ⟨c, hc, hn2⟩ := hn
      rw [nodesAtDepth_one] at hn2
      obtain ⟨-, -, -, -, -, hcm⟩ := hmem c hc
      obtain ⟨-, -, -, hempty, -, -⟩ := hcm n hn2
      rw [List.isEmpty_iff]
      exact hempty (by omega)
    · rw [List.all_eq_true]
      intro n hn
      rw [show ((3 : Int).toNat) = 3 from rfl, nodesAtDepth_succ, List.mem_flatMap] at hn
      obtain ⟨c, hc, hn2⟩ := hn
      rw [nodesAtDepth_succ, List.mem_flatMap] at hn2
      obtain ⟨m, hm, hn3⟩ := hn2
      rw [nodesAtDepth_one] at hn3
      obtain ⟨-, -, -, -, -, hcm⟩ := hmem c hc
      obtain ⟨-, -, -, -, -, hmm⟩ := hcm m hm
      obtain ⟨hempty, -, -⟩ := hmm n hn3
      rw [List.isEmpty_iff]
      exact hempty

/-- C2 witness: the theorem applied at depth 1 with concrete inputs. -/
theorem depth_exact_and_max_depth_leaves_witness :
    hgt (generate_keyword_structure pk0 env0 env0 P0 R0 "seo" 1 "") = (1 : Int).toNat ∧
    (nodesAtDepth (1 : Int).toNat (generate_keyword_structure pk0 env0 env0 P0 R0 "seo" 1 "")).all
      (fun n => n.children.isEmpty) = true :=
  depth_exact_and_max_depth_leaves pk0 env0 env0 P0 R0 "seo" "" 1 (Or.inl rfl)

/-- C3: each of the four capability resolvers tries the providers in the
fixed order, never returns an empty result (the rule engine is never
empty), and with every optional provider unavailable it returns exactly
the rule-engine result. -/
theorem fallback_resolver_never_empty (pk : Packages) (ienv env : Env) (P : Providers)
    (kw intentArg prompt : String) (r1 r2 r3 : Rand) :
    determine_intent pk env P kw ∈ INTENTS ∧
    (generate_title pk env P kw intentArg prompt r1).1 ≠ "" ∧
    (generate_related_keywords pk env P kw intentArg r2).1 ≠ [] ∧
    (generate_competitors pk ienv env P kw r3).1 ≠ [] ∧
    (env.openai_api_key = false → env.gemini_api_key = false →
     GOOGLE_SEARCH_AVAILABLE ienv = false →
      determine_intent pk env P kw = rule_intent kw ∧
      (generate_title pk env P kw intentArg prompt r1).1
        = (rule_title env kw intentArg prompt r1).1 ∧
      (generate_related_keywords pk env P kw intentArg r2).1
        = (rule_related_keywords kw (if intentArg = "" then rule_intent kw else intentArg) r2).1 ∧
      (generate_competitors pk ienv env P kw r3).1 = (rule_competitors kw r3).1) := by
  refine ⟨determine_intent_mem pk env P kw, generate_title_ne pk env P kw intentArg prompt r1,
    generate_related_keywords_ne pk env P kw intentArg r2,
    generate_competitors_ne pk ienv env P kw r3, ?_⟩
  intro hoa hgm hgs
  exact ⟨determine_intent_all_disabled pk env P kw hoa hgm,
    generate_title_all_disabled pk env P kw intentArg prompt r1 hoa hgm,
    generate_related_keywords_all_disabled pk env P kw intentArg r2 hoa hgm,
    generate_competitors_all_disabled pk ienv env P kw r3 hoa hgm hgs⟩

/-- C3 witness: with no provider configured, intent and competitors come
from the rule engine and are non-empty. -/
theorem fallback_resolver_never_empty_witness :
    determine_intent pk0 env0 P0 "seo" = rule_intent "seo" ∧
    (generate_competitors pk0 env0 env0 P0 "seo" []).1 = (rule_competitors "seo" []).1 ∧
    (generate_competitors pk0 env0 env0 P0 "seo" []).1 ≠ [] :=
  ⟨((fallback_resolver_never_empty pk0 env0 env0 P0 "seo" "" "" [] [] []).2.2.2.2
      rfl rfl rfl).1,
   ((fallback_resolver_never_empty pk0 env0 env0 P0 "seo" "" "" [] [] []).2.2.2.2
      rfl rfl rfl).2.2.2,
   (fallback_resolver_never_empty pk0 env0 env0 P0 "seo" "" "" [] [] []).2.2.2.1⟩

/-- C4 (amended): whether each AI provider is consulted is decided by the
credentials present at the moment of the call (absence disables it, and
setting it between two calls enables it for the second call); the
web-search provider's participation, however, is gated by the
`GOOGLE_SEARCH_AVAILABLE` flag computed at module import time, so a
credential absent at import and set later does not enable it.  Stated for
the competitor capability, the one consulting all three providers. -/
theorem provider_credentials_call_time_vs_import_time (pk : Packages) (ienv env : Env)
    (P : Providers) (kw : String) (r : Rand) (f g : String → List Competitor) :
    (env.openai_api_key = false →
      generate_competitors pk ienv env { P with openai_competitors := f } kw r
        = generate_competitors pk ienv env { P with openai_competitors := g } kw r) ∧
    (env.gemini_api_key = false →
      generate_competitors pk ienv env { P with gemini_competitors := f } kw r
        = generate_competitors pk ienv env { P with gemini_competitors := g } kw r) ∧
    (GOOGLE_SEARCH_AVAILABLE ienv = false →
      generate_competitors pk ienv env { P with google_search := f } kw r
        = generate_competitors pk ienv env { P with google_search := g } kw r) ∧
    (pk.openai = true → env.openai_api_key = true → GOOGLE_SEARCH_AVAILABLE ienv = false →
      (P.openai_competitors kw).take 3 ≠ [] →
      (generate_competitors pk ienv env P kw r).1 = (P.openai_competitors kw).take 3) ∧
    (pk.gemini = true → env.gemini_api_key = true → env.openai_api_key = false →
      GOOGLE_SEARCH_AVAILABLE ienv = false →
      (P.gemini_competitors kw).take 3 ≠ [] →
      (generate_competitors pk ienv env P kw r).1 = (P.gemini_competitors kw).take 3) ∧
    (GOOGLE_SEARCH_AVAILABLE ienv = true → env.google_search_api_key = true →
      env.google_search_cx = true → (P.google_search kw).take 3 ≠ [] →
      (generate_competitors pk ienv env P kw r).1 = (P.google_search kw).take 3) := by
  refine ⟨?_, ?_, ?_, ?_, ?_, ?_⟩
  · intro hoa
    unfold generate_competitors generate_competitors_with_openai
      generate_competitors_with_gemini generate_competitors_with_google_search
    dsimp only
    simp only [hoa, Bool.and_false, Bool.false_eq_true, if_false]
  · intro hgm
    unfold generate_competitors generate_competitors_with_openai
      generate_competitors_with_gemini generate_competitors_with_google_search
    dsimp only
    simp only [hgm, Bool.and_false, Bool.false_eq_true, if_false]
  · intro hgs
    unfold generate_competitors generate_competitors_with_openai
      generate_competitors_with_gemini generate_competitors_with_google_search
    dsimp only
    simp only [hgs, Bool.false_eq_true, if_false]
  · intro hpo hoa hgs hne
    unfold generate_competitors generate_competitors_with_openai
    dsimp only
    simp only [hpo, hoa, hgs, Bool.and_self, Bool.false_eq_true, if_false, Bool.not_true,
      ne_eq, not_true_eq_false, reduceIte]
    rw [if_pos hne]
  · intro hpg hgm hoa hgs hne
    unfold generate_competitors generate_competitors_with_openai
      generate_competitors_with_gemini initialize_gemini
    dsimp only
    simp only [hpg, hgm, hoa, hgs, Bool.and_self, Bool.and_false, Bool.false_eq_true,
      if_false, Bool.not_true, ne_eq, not_true_eq_false, reduceIte]
    rw [if_pos hne]
  · intro hgs hk hcx hne
    unfold generate_competitors generate_competitors_with_google_search
    dsimp only
    simp only [hgs, hk, hcx, Bool.and_self, Bool.not_true, Bool.false_eq_true, if_false,
      if_true, reduceIte]
    rw [if_pos hne]

/-- C4 witness: with no import-time search credentials, the call's result
does not depend on the search oracle even when call-time credentials are
present. -/
theorem provider_credentials_call_time_vs_import_time_witness :
    generate_competitors pkAll env0 envG
        { P0 with google_search := fun _ => [⟨"T", "U"⟩] } "seo" []
      = generate_competitors pkAll env0 envG
        { P0 with google_search := fun _ => [] } "seo" [] :=
  (provider_credentials_call_time_vs_import_time pkAll env0 envG P0 "seo" []
      (fun _ => [⟨"T", "U"⟩]) (fun _ => [])).2.2.1 rfl

/-- C4 counterexample: the web-search credentials are present at call time
and the search oracle answers with a non-empty list, yet — the import-time
flag being unset — the resolver returns the rule-engine competitors, not
the oracle's: setting the credential between import and the call did not
enable the provider. -/
theorem web_search_credentials_not_read_at_call_time :
    envG.google_search_api_key = true ∧ envG.google_search_cx = true ∧
    (P0g.google_search "seo").take 3 ≠ [] ∧
    (generate_competitors pkAll env0 envG P0g "seo" []).1 = (rule_competitors "seo" []).1 ∧
    (generate_competitors pkAll env0 envG P0g "seo" []).1 ≠ (P0g.google_search "seo").take 3 := by
  exact ⟨rfl, rfl, by decide, by decide, by decide⟩

/-- C5: the rule-based intent classifier checks the commercial indicators
first (so a keyword matching both a commercial and a navigational
indicator is Commercial), falls back to Informational when nothing
matches, and classifies the three cited examples as claimed. -/
theorem rule_intent_first_match_and_examples :
    rule_intent "best running shoes" = "Commercial" ∧
    rule_intent "how to tie a knot" = "Informational" ∧
    rule_intent "app login page" = "Navigational" ∧
    (∀ kw : String,
      (commercial_indicators.any fun ind => containsSub ind (pyLower kw)) = true →
      (navigational_indicators.any fun ind => containsSub ind (pyLower kw)) = true →
      rule_intent kw = "Commercial") ∧
    (∀ kw : String,
      (commercial_indicators.any fun ind => containsSub ind (pyLower kw)) = false →
      (navigational_indicators.any fun ind => containsSub ind (pyLower kw)) = false →
      rule_intent kw = "Informational") := by
  refine ⟨by decide, by decide, by decide, ?_, ?_⟩
  · intro kw hc _
    unfold rule_intent
    dsimp only
    rw [hc]
    simp
  · intro kw hc hn
    unfold rule_intent
    dsimp only
    rw [hc, hn]
    simp

/-- C5 witness: "best app" matches both indicator lists and is classified
Commercial; "zebra" matches neither and is Informational. -/
theorem rule_intent_first_match_and_examples_witness :
    rule_intent "best app" = "Commercial" ∧ rule_intent "zebra" = "Informational" :=
  ⟨rule_intent_first_match_and_examples.2.2.2.1 "best app" (by decide) (by decide),
   rule_intent_first_match_and_examples.2.2.2.2 "zebra" (by decide) (by decide)⟩

/-- C6 (amended): for every keyword, the rule-based competitor generator
returns exactly 3 records whose domains are pairwise distinct elements of
the fixed domain list, and each record's URL is
`https://www.<domain>/<slug>/` — the lowercase hyphenated slug of the
keyword, followed by a trailing slash. -/
theorem rule_competitors_three_distinct_domains (kw : String) (r : Rand) :
    ((rule_competitors kw r).1).length = 3 ∧
    ((sampleN 3 DOMAINS r).1).Nodup ∧
    ((sampleN 3 DOMAINS r).1).length = 3 ∧
    ((sampleN 3 DOMAINS r).1).all (fun d => decide (d ∈ DOMAINS)) = true ∧
    ((rule_competitors kw r).1).map Competitor.url
      = ((sampleN 3 DOMAINS r).1).map
          (fun d => "https://www." ++ d ++ "/" ++ slugify kw ++ "/") := by
  have hnd : DOMAINS.Nodup := by decide
  obtain ⟨hsn, hsub⟩ := sampleN_nodup_subset 3 DOMAINS r hnd
  refine ⟨rule_competitors_length kw r, hsn, sampleN_length 3 DOMAINS r (by decide), ?_, ?_⟩
  · rw [List.all_eq_true]
    intro d hd
    exact decide_eq_true (hsub d hd)
  · unfold rule_competitors
    dsimp only
    rw [rule_competitors_go_urls]

/-- C6 counterexample: the generated URL carries a slash after the slug,
so it does not equal `https://www.<domain>/` followed by the slug alone. -/
theorem rule_competitors_url_trailing_slash :
    ((rule_competitors "seo tips" []).1).map Competitor.url
      = ["https://www.example.com/seo-tips/", "https://www.seosite.com/seo-tips/",
         "https://www.digitalmarketer.com/seo-tips/"] ∧
    "https://www.example.com/seo-tips/" ≠ "https://www.example.com/" ++ slugify "seo tips" := by
  exact ⟨by decide, by decide⟩

/-- C7: every node of every generated tree has a word count within the
fixed inclusive range of its intent: Informational 1500-2500, Commercial
1200-2000, Navigational 800-1500. -/
theorem word_count_within_intent_range (pk : Packages) (ienv env : Env) (P : Providers)
    (R : Nat → Rand) (kw : String) (depth : Int) (prompt : String) :
    allNodesB word_count_ok (generate_keyword_structure pk ienv env P R kw depth prompt)
      = true := by
  obtain ⟨-, hw, -, -, -, hmem⟩ := generate_keyword_structure_spec pk ienv env P R kw depth prompt
  apply allNodesB_of_facts _ _ hw
  intro c hc
  obtain ⟨hcw, -, -, -, -, hcm⟩ := hmem c hc
  apply allNodesB_of_facts _ _ hcw
  intro m hm
  obtain ⟨hmw, -, -, -, -, hmm⟩ := hcm m hm
  apply allNodesB_of_facts _ _ hmw
  intro g hg
  obtain ⟨hgempty, hgw, -⟩ := hmm g hg
  apply allNodesB_of_facts _ _ hgw
  intro x hx
  rw [hgempty] at hx
  simp at hx

/-- C8: two runs of tree generation that differ only in the custom title
instruction — same keyword, depth, provider availability and matched
randomness per capability call — produce trees that agree on every node's
keyword, intent, word count, competitors and children structure; only
titles may differ. -/
theorem custom_prompt_only_affects_titles (pk : Packages) (ienv env : Env) (P : Providers)
    (R : Nat → Rand) (kw : String) (depth : Int) (p1 p2 : String) :
    stripTitles (generate_keyword_structure pk ienv env P R kw depth p1)
      = stripTitles (generate_keyword_structure pk ienv env P R kw depth p2) := by
  unfold generate_keyword_structure
  dsimp only
  obtain ⟨hn, hc⟩ := generate_keyword_node_prompt_indep pk ienv env P R kw true p1 p2 0
  rw [stripTitles_withChildren, stripTitles_withChildren, hn, hc]
  obtain ⟨h1, -⟩ := buildLevel1_prompt_indep pk ienv env P R depth p1 p2
    ((generate_related_keywords pk env P kw ""
      (R (generate_keyword_node pk ienv env P R kw true p2 0).2)).1)
    ((generate_keyword_node pk ienv env P R kw true p2 0).2 + 1)
  rw [h1]

/-- C9 (implicit): the builder clamps the effective depth itself: the
first level is always built (related-keyword generation is never empty,
so even depth <= 0 yields one level below the root), no fourth level is
ever built for depth > 3, and the height below the root is exactly
`min (max depth 1) 3` for every integer depth. -/
theorem effective_depth_min_max_clamp (pk : Packages) (ienv env : Env) (P : Providers)
    (R : Nat → Rand) (kw : String) (prompt : String) (depth : Int) :
    (generate_keyword_structure pk ienv env P R kw depth prompt).children ≠ [] ∧
    hgt (generate_keyword_structure pk ienv env P R kw depth prompt)
      = (min (max depth 1) 3).toNat := by
  obtain ⟨-, -, -, -, hne, -⟩ := generate_keyword_structure_spec pk ienv env P R kw depth prompt
  exact ⟨hne, hgt_generate_keyword_structure pk ienv env P R kw prompt depth⟩

/-- C10 (amended): the rule-based classifier uses raw substring
containment with no word-boundary check, so any keyword whose lowercase
text contains "vs" — also inside a longer word, as in "mavs game tonight"
— is classified Commercial, and "application form" is classified
Navigational via the "app" indicator.  (The claim's example "canvas
printing" does not contain the pair "vs".) -/
theorem substring_matching_no_word_boundary :
    (∀ kw : String, containsSub "vs" (pyLower kw) = true → rule_intent kw = "Commercial") ∧
    containsSub "vs" (pyLower "mavs game tonight") = true ∧
    rule_intent "mavs game tonight" = "Commercial" ∧
    rule_intent "application form" = "Navigational" := by
  refine ⟨?_, by decide, by decide, by decide⟩
  intro kw h
  unfold rule_intent
  dsimp only
  have hany : (commercial_indicators.any fun ind => containsSub ind (pyLower kw)) = true :=
    List.any_eq_true.mpr ⟨"vs", by decide, h⟩
  rw [hany]
  simp

/-- C10 witness: the quantified part applied at "mavs game tonight". -/
theorem substring_matching_no_word_boundary_witness :
    rule_intent "mavs game tonight" = "Commercial" :=
  substring_matching_no_word_boundary.1 "mavs game tonight" (by decide)

/-- C10 counterexample: "canvas printing" does not contain the letter
pair "vs" (the v of canvas is followed by a), and the classifier returns
Informational for it, not Commercial. -/
theorem canvas_printing_lacks_vs :
    containsSub "vs" (pyLower "canvas printing") = false ∧
    rule_intent "canvas printing" = "Informational" := by
  exact ⟨by decide, by decide⟩

end SeoMap
